import Mathlib

/-!
# Verification of the goop LLM reverse proxy against its specification

This file gives a shallow embedding, in Lean 4, of the parts of the goop
reverse proxy (github.com/robertprast/goop) that the specification's claims
C1..C10 are about, together with theorems settling each claim.

Conventions of the embedding:
* Go byte slices are `List Nat` (each element a byte value < 256).
* Go strings are Lean `String` (or `List Char` where character-level
  reasoning is needed); only ASCII data is relevant to the claims.
* Machine integers are `Nat` with explicit reduction `% 2^32` where Go's
  `uint32` arithmetic overflows (the SHA-256 computation).
* Fallible Go functions returning `(T, error)` become `Except String T`.
* Side effects (HTTP responses written, goroutine callbacks, database
  queries) are made explicit as record fields of result values.

Each embedded definition mirrors a named Go function of the repository;
its doc comment names the source location.
-/

/-! ## Small Go standard-library helpers -/

/-- Byte values considered whitespace by Go's `strings.TrimSpace` for ASCII
input (`asciiSpace` in the Go standard library): tab, newline, vertical tab,
form feed, carriage return, space. -/
def goIsSpace (c : Char) : Bool :=
  c = ' ' || c = '\t' || c = '\n' || c = '\x0b' || c = '\x0c' || c = '\r'

/-- Go `strings.TrimSpace` restricted to ASCII input: drop leading and
trailing whitespace characters. -/
def goTrimSpace (s : String) : String :=
  String.mk (((s.toList.dropWhile goIsSpace).reverse.dropWhile goIsSpace).reverse)

/-- Does `sub` occur at the start of `l`? (Go `strings.HasPrefix` on char
lists; also the inner loop of `strings.Contains`.) -/
def startsWithChars : List Char → List Char → Bool
  | _, [] => true
  | [], _ :: _ => false
  | c :: cs, d :: ds => c = d && startsWithChars cs ds

/-- Does `sub` occur anywhere in `l`? (Go `strings.Contains` on char lists.) -/
def containsSub : List Char → List Char → Bool
  | l, sub =>
    match l with
    | [] => startsWithChars [] sub
    | c :: cs => startsWithChars (c :: cs) sub || containsSub cs sub

/-- Go `strings.Contains` on strings. -/
def goContains (s sub : String) : Bool :=
  containsSub s.toList sub.toList

/-- Go `strings.ContainsAny(s, chars)`: does `s` contain any character of
`chars`? -/
def goContainsAny (s : String) (chars : List Char) : Bool :=
  s.toList.any (fun c => chars.contains c)

/-- Helper for `goSplitN`: `remaining` is the number of separators still
allowed to split (Go's `SplitN(s, sep, n)` returns at most `n` pieces, so it
performs at most `n-1` splits). -/
def goSplitNAux (sep : Char) : List Char → Nat → List Char → List (List Char)
  | [], _, acc => [acc.reverse]
  | c :: cs, remaining, acc =>
    if remaining = 0 then [acc.reverse ++ (c :: cs)]
    else if c = sep then acc.reverse :: goSplitNAux sep cs (remaining - 1) []
    else goSplitNAux sep cs remaining (c :: acc)

/-- Go `strings.SplitN(s, sep, n)` for a single-character separator and
`n ≥ 1` (the only uses in the embedded code are `SplitN(path, "/", 3)` and
`SplitN(header, " ", 2)`). -/
def goSplitN (s : String) (sep : Char) (n : Nat) : List String :=
  (goSplitNAux sep s.toList (n - 1) []).map String.mk

/-- Go `strings.ToLower` restricted to ASCII. -/
def goToLower (s : String) : String :=
  String.mk (s.toList.map Char.toLower)

/-! ## SHA-256 (Go `crypto/sha256`), executable over byte lists

Needed for claim C3 (the SigV4 payload hash) and reused for the auth key
hash. Bytes are `Nat` values; words are `Nat` reduced mod `2^32`. -/

/-- Truncate to a 32-bit word. -/
def w32 (x : Nat) : Nat := x % 4294967296

/-- 32-bit rotate right. -/
def rotr32 (n x : Nat) : Nat := w32 ((x >>> n) ||| (x <<< (32 - n)))

/-- SHA-256 `Ch(x,y,z)`; complement is xor with the 32-bit all-ones mask. -/
def sha256Ch (x y z : Nat) : Nat := (x &&& y) ^^^ ((x ^^^ 4294967295) &&& z)

/-- SHA-256 `Maj(x,y,z)`. -/
def sha256Maj (x y z : Nat) : Nat := (x &&& y) ^^^ (x &&& z) ^^^ (y &&& z)

/-- SHA-256 Σ₀. -/
def bigSigma0 (x : Nat) : Nat := rotr32 2 x ^^^ rotr32 13 x ^^^ rotr32 22 x

/-- SHA-256 Σ₁. -/
def bigSigma1 (x : Nat) : Nat := rotr32 6 x ^^^ rotr32 11 x ^^^ rotr32 25 x

/-- SHA-256 σ₀. -/
def smallSigma0 (x : Nat) : Nat := rotr32 7 x ^^^ rotr32 18 x ^^^ (x >>> 3)

/-- SHA-256 σ₁. -/
def smallSigma1 (x : Nat) : Nat := rotr32 17 x ^^^ rotr32 19 x ^^^ (x >>> 10)

/-- The 64 SHA-256 round constants. -/
def sha256K : List Nat :=
  [1116352408, 1899447441, 3049323471, 3921009573, 961987163,
   1508970993, 2453635748, 2870763221, 3624381080, 310598401,
   607225278, 1426881987, 1925078388, 2162078206, 2614888103,
   3248222580, 3835390401, 4022224774, 264347078, 604807628,
   770255983, 1249150122, 1555081692, 1996064986, 2554220882,
   2821834349, 2952996808, 3210313671, 3336571891, 3584528711,
   113926993, 338241895, 666307205, 773529912, 1294757372,
   1396182291, 1695183700, 1986661051, 2177026350, 2456956037,
   2730485921, 2820302411, 3259730800, 3345764771, 3516065817,
   3600352804, 4094571909, 275423344, 430227734, 506948616,
   659060556, 883997877, 958139571, 1322822218, 1537002063,
   1747873779, 1955562222, 2024104815, 2227730452, 2361852424,
   2428436474, 2756734187, 3204031479, 3329325298]

/-- The SHA-256 initial hash state. -/
def sha256H0 : List Nat :=
  [1779033703, 3144134277, 1013904242, 2773480762,
   1359893119, 2600822924, 528734635, 1541459225]

/-- SHA-256 message padding: append `0x80`, zero bytes up to 56 mod 64, then
the bit length as an 8-byte big-endian integer. -/
def sha256Pad (msg : List Nat) : List Nat :=
  let len := msg.length
  let bitLen := 8 * len
  let zeros := (120 - ((len + 1) % 64)) % 64
  msg ++ [0x80] ++ List.replicate zeros 0 ++
    [w32 (bitLen >>> 56) % 256, (bitLen >>> 48) % 256, (bitLen >>> 40) % 256,
     (bitLen >>> 32) % 256, (bitLen >>> 24) % 256, (bitLen >>> 16) % 256,
     (bitLen >>> 8) % 256, bitLen % 256]

/-- Split a byte list into 64-byte blocks; `fuel` bounds the recursion depth
(structural, so that the kernel can evaluate it). -/
def toBlocksAux : Nat → List Nat → List (List Nat)
  | 0, _ => []
  | _, [] => []
  | fuel + 1, a :: l => ((a :: l).take 64) :: toBlocksAux fuel ((a :: l).drop 64)

/-- Split a byte list into 64-byte blocks. -/
def toBlocks (l : List Nat) : List (List Nat) := toBlocksAux l.length l

/-- Combine big-endian groups of four bytes into 32-bit words. -/
def bytesToWords : List Nat → List Nat
  | b0 :: b1 :: b2 :: b3 :: rest =>
    (((b0 * 256 + b1) * 256 + b2) * 256 + b3) :: bytesToWords rest
  | _ => []

/-- Extend a 16-word message schedule by `n` further words. -/
def extendSchedule (ws : List Nat) : Nat → List Nat
  | 0 => ws
  | n + 1 =>
    let len := ws.length
    let t := w32 (smallSigma1 (ws.getD (len - 2) 0) + ws.getD (len - 7) 0 +
      smallSigma0 (ws.getD (len - 15) 0) + ws.getD (len - 16) 0)
    extendSchedule (ws ++ [t]) n

/-- One SHA-256 compression round; the state is the 8-word working list
`[a,b,c,d,e,f,g,h]`. -/
def sha256Round (st : List Nat) (kw : Nat × Nat) : List Nat :=
  match st with
  | [a, b, c, d, e, f, g, h] =>
    let t1 := w32 (h + bigSigma1 e + sha256Ch e f g + kw.1 + kw.2)
    let t2 := w32 (bigSigma0 a + sha256Maj a b c)
    [w32 (t1 + t2), a, b, c, w32 (d + t1), e, f, g]
  | other => other

/-- Compress one 64-byte block into the running hash state. -/
def compressBlock (hs : List Nat) (block : List Nat) : List Nat :=
  let ws := extendSchedule (bytesToWords block) 48
  let fin := (sha256K.zip ws).foldl sha256Round hs
  (hs.zip fin).map (fun p => w32 (p.1 + p.2))

/-- A 32-bit word as four big-endian bytes. -/
def wordToBytes (x : Nat) : List Nat :=
  [(x >>> 24) % 256, (x >>> 16) % 256, (x >>> 8) % 256, x % 256]

/-- SHA-256 digest of a byte list, as 32 bytes. -/
def sha256Bytes (msg : List Nat) : List Nat :=
  ((toBlocks (sha256Pad msg)).foldl compressBlock sha256H0).flatMap wordToBytes

/-- A nibble as a lower-case hex character. -/
def hexDigit (n : Nat) : Char :=
  if n < 10 then Char.ofNat (48 + n) else Char.ofNat (87 + n)

/-- `encoding/hex.EncodeToString` of a byte list. -/
def bytesToHex (bs : List Nat) : String :=
  String.mk (bs.flatMap (fun b => [hexDigit ((b / 16) % 16), hexDigit (b % 16)]))

/-- SHA-256 digest of a byte list as a lower-case hex string (the composition
`hex.EncodeToString(sha256.Sum256(body))` used throughout the source). -/
def sha256Hex (msg : List Nat) : String := bytesToHex (sha256Bytes msg)


/-! ## HTTP requests and the Bedrock SigV4 signer (claim C3)

Sources: `SignRequest` (pkg/engine/bedrock, src/unnamed/part_016:19-71) and
`signRequest` (src/pkg/engine/bedrock/types.go:204-238). Only the data flow
relevant to signing is modelled: the body bytes, the URL/Host rewrite, the
header cleaning, and the payload-hash argument handed to
`signer.SignHTTP`. -/

/-- An HTTP request as the signer sees it. `body = none` models a nil
`req.Body` (e.g. a GET request). -/
structure HttpRequest where
  urlScheme : String
  urlHost : String
  host : String
  headers : List (String × String)
  body : Option (List Nat)

/-- The observable result of signing: the request's rewritten fields, the
body bytes that the re-installed `req.Body` will yield to the transport, and
the `payloadHash` string passed to `signer.SignHTTP`. -/
structure SignedRequest where
  urlScheme : String
  urlHost : String
  host : String
  headers : List (String × String)
  sentBody : List Nat
  payloadHash : String
  service : String

/-- Go `http.Header.Get`: first value for the key, or "". -/
def headerGet (headers : List (String × String)) (key : String) : String :=
  match headers with
  | [] => ""
  | (n, v) :: rest => if n = key then v else headerGet rest key

/-- `BedrockEngine.SignRequest` (src/unnamed/part_016:19-71): buffer the body
(nil body becomes the empty byte slice) and re-install it, rewrite
scheme/host to the Bedrock runtime endpoint, replace the header set with the
`Content-Type`-only allowlist, hash the buffered body with SHA-256, and sign
with service scope `bedrock`. -/
def SignRequest (region : String) (req : HttpRequest) : SignedRequest :=
  let body : List Nat :=
    match req.body with
    | some b => b
    | none => []
  let targetHost := "bedrock-runtime." ++ region ++ ".amazonaws.com"
  let contentType := headerGet req.headers "Content-Type"
  let cleanHeaders := if contentType ≠ "" then [("Content-Type", contentType)] else []
  { urlScheme := "https"
    urlHost := targetHost
    host := targetHost
    headers := cleanHeaders
    sentBody := body
    payloadHash := bytesToHex (sha256Bytes body)
    service := "bedrock" }

/-- The well-known SHA-256 of the empty string, hard-coded at
src/pkg/engine/bedrock/types.go:224. -/
def emptyBodySha256 : String :=
  "e3b0c44298fc1c149afbf4c8996fb92427ae41e4649b934ca495991b7852b855"

/-- `BedrockEngine.signRequest` (src/pkg/engine/bedrock/types.go:204-238):
buffer and re-install the body and hash it; a nil body is signed with the
hard-coded empty-string SHA-256 and nothing is sent. URL/host were already
rewritten by `ModifyRequest`, so they pass through unchanged. -/
def signRequest (req : HttpRequest) : SignedRequest :=
  match req.body with
  | some b =>
    { urlScheme := req.urlScheme, urlHost := req.urlHost, host := req.host
      headers := req.headers, sentBody := b
      payloadHash := bytesToHex (sha256Bytes b), service := "bedrock" }
  | none =>
    { urlScheme := req.urlScheme, urlHost := req.urlHost, host := req.host
      headers := req.headers, sentBody := []
      payloadHash := emptyBodySha256, service := "bedrock" }

/-! ## Bedrock streaming transcode (claim C1)

Sources: `processStreamingEvent`, `handleContentBlockDelta`,
`extractContentOrToolCall`, `getEventType`
(src/pkg/transformers/bedrock/transformer.go:222-284), `sendOpenAIChunk`
(src/unnamed/part_005:47-66), and the decode loop `handleStreamingResponse`
(src/pkg/transformers/bedrock/bedrock.go:72-96). -/

/-- `bedrock.ToolCall` (src/pkg/engine/bedrock/types.go:49-56). -/
structure BedrockToolCall where
  id : String
  type : String
  functionName : String
  functionArguments : String
deriving DecidableEq

/-- The decoded form of a `contentBlockDelta` payload, as classified by
`extractContentOrToolCall` (transformer.go:257-275), which attempts a
text-delta parse, then a tool-call parse, then a thinking parse.
`envelopeError` stands for a payload whose outer
`CustomContentBlockDeltaEvent` unmarshal fails (handleContentBlockDelta
logs it and writes nothing); `malformed` for a delta that fails all three
parses (an error is returned). -/
inductive DeltaPayload where
  | textDelta (value : String)
  | toolCall (tc : BedrockToolCall)
  | thinking (text : String)
  | envelopeError
  | malformed
deriving DecidableEq

/-- An AWS event-stream frame: its headers and (decoded) payload. -/
structure EventMessage where
  headers : List (String × String)
  payload : DeltaPayload
deriving DecidableEq

/-- `getEventType` (transformer.go:277-284): the value of the first
`:event-type` header, or "". -/
def getEventType (headers : List (String × String)) : String :=
  match headers with
  | [] => ""
  | (n, v) :: rest => if n = ":event-type" then v else getEventType rest

/-- `sendOpenAIChunk` (src/unnamed/part_005:47-66): the bytes written to the
client for one chunk are `data: <chunkJSON>\n\n` (followed by a flush).
The JSON marshalling of the chunk map built by `createOpenAIChunk` is taken
as the input string. -/
def sendOpenAIChunk (chunkJSON : String) : String := "data: " ++ chunkJSON ++ "\n\n"

/-- `handleContentBlockDelta` (transformer.go:240-255). `marshal` abstracts
`json.Marshal(createOpenAIChunk …)`, which always succeeds on the map the
source builds; the frame bytes written do not depend on its content. -/
def handleContentBlockDelta (marshal : DeltaPayload → String) (event : EventMessage) :
    Except Unit (List String) :=
  match event.payload with
  | .envelopeError => .ok []
  | .malformed => .error ()
  | d => .ok [sendOpenAIChunk (marshal d)]

/-- `processStreamingEvent` (transformer.go:222-238): the list of byte
strings written to the response writer for one event. `messageStart` and
unknown event types write nothing; `messageEnd` writes the bytes
`[DONE]\n\n`. -/
def processStreamingEvent (marshal : DeltaPayload → String) (event : EventMessage) :
    Except Unit (List String) :=
  let eventType := getEventType event.headers
  if eventType = "messageStart" then .ok []
  else if eventType = "messageEnd" then .ok ["[DONE]\n\n"]
  else if eventType = "contentBlockDelta" then handleContentBlockDelta marshal event
  else .ok []

/-- `BedrockProxy.handleStreamingResponse` (bedrock.go:72-96): decode events
until EOF, processing each; the result is the concatenation of all bytes
written to the client, together with a flag recording whether the loop
aborted with an error. -/
def handleStreamingResponse (marshal : DeltaPayload → String) :
    List EventMessage → (List String × Bool)
  | [] => ([], false)
  | e :: rest =>
    match processStreamingEvent marshal e with
    | .error _ => ([], true)
    | .ok ws =>
      let r := handleStreamingResponse marshal rest
      (ws ++ r.1, r.2)

/-- Claim C1's framing property for a streamed response body: every frame
before the last is `data: {json}\n\n` and the final frame is exactly
`data: [DONE]\n\n`. -/
def IsOpenAISSEStream (frames : List String) : Prop :=
  (∀ f ∈ frames.dropLast, ∃ j, f = "data: " ++ j ++ "\n\n") ∧
  frames.getLast? = some "data: [DONE]\n\n"

/-! ## Bedrock thinking configuration (claim C2)

Sources: `buildThinkingConfig`
(src/pkg/transformers/bedrock/transformer.go:197-220) and the request
transformation that attaches it (whose unit tests are
src/unnamed/part_004). -/

/-- The fields of `openai_schema.IncomingChatCompletionRequest` read by the
embedded functions (the full struct has further sampling/message/tool fields
that none of the embedded functions inspect). -/
structure IncomingChatCompletionRequest where
  model : String := ""
  stream : Bool := false
  reasoningEffort : Option String := none

/-- `bedrock.ThinkingConfig`, serialized as
`\x7b"type": …, "budget_tokens": …\x7d`. -/
structure ThinkingConfig where
  type : String
  budgetTokens : Nat
deriving DecidableEq

/-- `buildThinkingConfig` (transformer.go:197-220): map `reasoning_effort`
to a token budget (`low` 2048, `medium` 8192, `high` 32768, unknown values
default to medium); an absent field yields no thinking configuration. -/
def buildThinkingConfig (reqBody : IncomingChatCompletionRequest) : Option ThinkingConfig :=
  match reqBody.reasoningEffort with
  | none => none
  | some eff =>
    let budgetTokens : Nat :=
      if eff = "low" then 2048
      else if eff = "medium" then 8192
      else if eff = "high" then 32768
      else 8192
    some { type := "enabled", budgetTokens := budgetTokens }

/-- The `thinking` component of the JSON body produced by the Bedrock request
transformation: `some c` corresponds to a body containing the top-level key
`thinking` serialized from `c`, `none` to a body omitting the key entirely
(`omitempty`). The remaining body components (messages, system,
inferenceConfig, toolConfig) are not modelled. -/
structure BedrockRequestThinking where
  thinking : Option ThinkingConfig
deriving DecidableEq

/-- Modelled from the spec: the revision of
`BedrockProxy.TransformChatCompletionRequest` that attaches the thinking
configuration to the Bedrock request body is not under src/ (only its unit
tests, src/unnamed/part_004, and the `buildThinkingConfig` helper above
are). Per the spec, `reasoning_effort` maps to a top-level Bedrock
`thinking` object built by `buildThinkingConfig`, and an absent
`reasoning_effort` omits the object entirely. -/
def TransformChatCompletionRequest (reqBody : IncomingChatCompletionRequest) :
    BedrockRequestThinking :=
  { thinking := buildThinkingConfig reqBody }

/-! ## Native-passthrough proxy middleware (claims C4 and C5, native side)

Sources: `auditMiddleware` (src/pkg/proxy/proxy.go:51-62) and
`engineMiddleware` (src/pkg/proxy/proxy.go:64-123); `NewProxyHandler`
(proxy.go:28-38) composes them with the audit middleware outermost. -/

/-- Go `strings.HasPrefix` on strings. -/
def goHasPrefix (s pre : String) : Bool :=
  startsWithChars s.toList pre.toList

/-- Go `strings.TrimPrefix`. -/
def goTrimPrefix (s pre : String) : String :=
  if startsWithChars s.toList pre.toList then String.mk (s.toList.drop pre.toList.length) else s

/-- Modelled from the spec: the revision of `audit.Request` that returns an
error is not under src/ (the revision at src/unnamed/part_000:94-116 returns
nothing, while `auditMiddleware` checks an error result). Per the spec, the
audit middleware reads the entire request body into memory and substitutes an
equivalent re-readable body on the request; failure to read the body is an
error. -/
def auditRequest (bodyReadOk : Bool) (body : List Nat) : Except String (List Nat) :=
  if bodyReadOk then .ok body else .error "error draining body"

/-- The observable outcome of the native-passthrough handler chain for one
request: the HTTP error status written by a middleware (with its message), or
`none` when the request went through to the reverse-proxy forwarder, in which
case `upstreamCalled` is true. -/
structure HandlerOutcome where
  status : Option Nat
  body : String
  upstreamCalled : Bool
deriving DecidableEq

/-- `engineMiddleware` (proxy.go:64-123): split the path, check that the
first segment names an engine with credentials (`GetAvailableEngines`),
construct the engine (`construct` abstracts the per-engine constructors,
which read YAML config and the ambient credential chains), check the path
whitelist, then fall through to the reverse proxy. -/
def engineMiddlewareStep (available : List String) (construct : String → Except String Unit)
    (isAllowedPath : String → String → Bool) (path : String) : HandlerOutcome :=
  let segments := goSplitN path '/' 3
  if segments.length < 2 then ⟨some 400, "Invalid path", false⟩
  else
    let firstPathSegment := segments.getD 1 ""
    if !(available.contains firstPathSegment) then
      ⟨some 404, "Engine not available", false⟩
    else if firstPathSegment = "openai" || firstPathSegment = "azure" ||
        firstPathSegment = "bedrock" || firstPathSegment = "gemini" then
      match construct firstPathSegment with
      | .error _ => ⟨some 500, "Error selecting engine", false⟩
      | .ok _ =>
        if !(isAllowedPath firstPathSegment (goTrimPrefix path firstPathSegment)) then
          ⟨some 403, "Forbidden", false⟩
        else ⟨none, "", true⟩
    else ⟨some 404, "Engine not found", false⟩

/-- The native-passthrough handler chain (`NewProxyHandler`, proxy.go:28-38):
the audit middleware runs first; on audit failure the request is terminated
with 500 `Audit failed` before the engine middleware and the upstream call. -/
def proxyHandlerServe (bodyReadOk : Bool) (body : List Nat) (available : List String)
    (construct : String → Except String Unit) (isAllowedPath : String → String → Bool)
    (path : String) : HandlerOutcome :=
  match auditRequest bodyReadOk body with
  | .error _ => ⟨some 500, "Audit failed", false⟩
  | .ok _ => engineMiddlewareStep available construct isAllowedPath path

/-! ## OpenAI-compat engine selection (claims C5 and C6)

Sources: `selectEngine` (src/pkg/proxy/engine_cache.go:517-580), the status
mapping in `handleChatCompletionsInternal` (engine_cache.go:475-489), and the
error wrapping in `EngineCache.GetEngine` (engine_cache.go:46-88). -/

/-- The engine-tag selection switch of `selectEngine`
(engine_cache.go:531-570), including its error strings (the handler
dispatches on their contents). -/
def selectEngineType (available : List String) (model : String) : Except String String :=
  if goHasPrefix model "openai/" then
    if available.contains "openai" then .ok "openai"
    else .error "OpenAI engine not available - check API key configuration"
  else if goHasPrefix model "bedrock/" then
    if available.contains "bedrock" then .ok "bedrock"
    else .error "Bedrock engine not available - check AWS credentials configuration"
  else if goHasPrefix model "gemini/" then
    if available.contains "gemini" then .ok "gemini"
    else .error "Gemini engine not available - check API key configuration"
  else if goHasPrefix model "gpt-" || goHasPrefix model "text-" || goHasPrefix model "davinci" then
    if available.contains "openai" then .ok "openai"
    else .error ("OpenAI engine not available for model " ++ model ++
      " - check API key configuration")
  else if goHasPrefix model "gemini-" then
    if available.contains "gemini" then .ok "gemini"
    else .error ("Gemini engine not available for model " ++ model ++
      " - check API key configuration")
  else
    .error ("unsupported model: " ++ model ++
      ". Use prefixes like openai/, bedrock/, or gemini/ to specify the engine")

/-- `EngineCache.GetEngine` (engine_cache.go:46-88): a construction failure
is wrapped as `engine <type> not available: <cause>` and not cached;
`construct` abstracts `createEngine` (YAML config and credential-chain
reads). -/
def GetEngine (construct : String → Except String Unit) (engineType : String) :
    Except String String :=
  match construct engineType with
  | .ok _ => .ok engineType
  | .error e => .error ("engine " ++ engineType ++ " not available: " ++ e)

/-- `selectEngine` (engine_cache.go:517-580): the tag switch followed by the
cache lookup / construction. -/
def selectEngine (available : List String) (construct : String → Except String Unit)
    (model : String) : Except String String :=
  (selectEngineType available model).bind (fun t => GetEngine construct t)

/-- The error dispatch of `handleChatCompletionsInternal`
(engine_cache.go:475-489): a selection error whose text mentions
`not available`, `not configured` or `unsupported model` is returned to the
client as 400 with the error text; other selection errors as 500. `none`
means selection succeeded and the request proceeds to the upstream call. -/
def handleChatCompletionsSelectStatus (selResult : Except String String) :
    Option (Nat × String) :=
  match selResult with
  | .ok _ => none
  | .error e =>
    if goContains e "not available" || goContains e "not configured" then some (400, e)
    else if goContains e "unsupported model" then some (400, e)
    else some (500, "Error selecting engine")

/-! ## Bedrock model discovery (claim C7)

Source: `BedrockEngine.ListModels`
(src/pkg/engine/bedrock/bedrock.go:418-517). The HTTP fetch, signing and
cache are not at issue; the filtering loop over the decoded
`modelSummaries` (bedrock.go:476-509) is embedded. -/

/-- `ModelSummary` (bedrock.go:347-358), restricted to the fields the
filtering loop reads. -/
structure ModelSummary where
  inferenceTypesSupported : List String
  modelId : String
  modelName : String
  providerName : String
  lifecycleStatus : String
  responseStreamingSupported : Bool
deriving DecidableEq

/-- `openai_schema.Model` as emitted for Bedrock. -/
structure Model where
  id : String
  name : String
  object : String
  created : Nat
  ownedBy : String
deriving DecidableEq

/-- `CR_INFERENCE_PREFIX` (bedrock.go:318). -/
def CR_INFERENCE_PREFIX : String := "us"

/-- The base model entry appended for an ON_DEMAND model
(bedrock.go:489-497); `now` stands for `time.Now().Unix()`. -/
def bedrockBaseModel (now : Nat) (s : ModelSummary) : Model :=
  { id := "bedrock/" ++ s.modelId, name := s.modelName, object := "model",
    created := now, ownedBy := s.providerName }

/-- The synthetic cross-region-inference entry (bedrock.go:498-508). -/
def bedrockCRModel (now : Nat) (s : ModelSummary) : Model :=
  { id := "bedrock/" ++ (CR_INFERENCE_PREFIX ++ "." ++ s.modelId), name := s.modelName,
    object := "model", created := now, ownedBy := s.providerName }

/-- The filtering loop of `ListModels` (bedrock.go:476-509): skip summaries
without streaming support or with a non-ACTIVE lifecycle; append the base
entry when ON_DEMAND inference is supported; append the cross-region entry
(the `CR_INFERENCE_PREFIX != ""` guard is on the constant `us`) — note the
cross-region append is outside the ON_DEMAND check. -/
def listModelsFilter (now : Nat) : List ModelSummary → List Model
  | [] => []
  | summary :: rest =>
    let tail := listModelsFilter now rest
    if !summary.responseStreamingSupported || summary.lifecycleStatus ≠ "ACTIVE" then tail
    else
      let base :=
        if summary.inferenceTypesSupported.contains "ON_DEMAND" then
          [bedrockBaseModel now summary]
        else []
      let variant :=
        if CR_INFERENCE_PREFIX ≠ "" then [bedrockCRModel now summary] else []
      base ++ variant ++ tail

/-! ## Bearer authentication (claims C8 and C10)

Sources: `Middleware.RequireAuth` and `extractAndValidateAPIKey`
(src/pkg/auth/middleware.go:35-55, 90-128) and `Service.ValidateAPIKey`
(src/pkg/auth/service.go:168-209). -/

/-- Is `c` a character accepted by `encoding/hex.DecodeString`
(0-9, a-f, A-F)? -/
def isGoHexDigit (c : Char) : Bool :=
  (48 ≤ c.toNat && c.toNat ≤ 57) || (97 ≤ c.toNat && c.toNat ≤ 102) ||
  (65 ≤ c.toNat && c.toNat ≤ 70)

/-- `encoding/hex.DecodeString` succeeds iff the length is even and every
character is a hex digit. -/
def goHexDecodeOk (s : String) : Bool :=
  (s.length % 2 == 0) && s.toList.all isGoHexDigit

/-- `hashAPIKey` (service.go:95-98): SHA-256 of the key bytes, hex encoded.
Only ASCII bearer values are relevant, so `Char.toNat` is the byte value. -/
def hashAPIKey (key : String) : String :=
  sha256Hex (key.toList.map Char.toNat)

/-- The format checks of `extractAndValidateAPIKey` (middleware.go:90-128)
before `service.ValidateAPIKey` is consulted: returns the trimmed bearer
token. Lengths are byte lengths in Go; for the ASCII tokens at issue they
coincide with `String.length`. -/
def extractAndValidateAPIKeyFormat (authHeader : String) : Except String String :=
  if authHeader = "" then .error "missing Authorization header"
  else if goContainsAny authHeader ['\r', '\n'] then .error "invalid Authorization header"
  else
    let parts := goSplitN authHeader ' ' 2
    if ¬ (parts.length = 2 ∧ goToLower (parts.getD 0 "") = "bearer") then
      .error "invalid Authorization header format"
    else
      let token := goTrimSpace (parts.getD 1 "")
      if token = "" then .error "empty API key"
      else if token.length > 100 then .error "invalid API key"
      else if goContainsAny token ['\r', '\n', '\t'] then .error "invalid API key"
      else .ok token

/-- The format-validation stage of `Service.ValidateAPIKey`
(service.go:168-183), in source order, before the database SELECT: returns
the key hash that would be queried. -/
def validateAPIKeyFormat (key : String) : Except String String :=
  if goTrimSpace key = "" then .error "invalid API key"
  else if ¬ (key.length = 64) then .error "invalid API key"
  else if ¬ (goHexDecodeOk key = true) then .error "invalid API key"
  else .ok (hashAPIKey key)

/-- The outcome of the auth middleware for one request. -/
structure AuthResult where
  status : Option Nat
  storeQueried : Bool
deriving DecidableEq

/-- `RequireAuth` (middleware.go:35-55) composed with `ValidateAPIKey`
(service.go:168-209). `disableAuth` is the `GOOP_DISABLE_AUTH` environment
override; `store keyHash` abstracts the SELECT on `api_keys` (true iff an
active row with that hash exists). Any validation error yields 401
`Unauthorized`; the store is consulted only after every format check has
passed. -/
def RequireAuth (disableAuth : Bool) (store : String → Bool)
    (authHeader : String) : AuthResult :=
  if disableAuth then { status := none, storeQueried := false }
  else
    match extractAndValidateAPIKeyFormat authHeader with
    | .error _ => { status := some 401, storeQueried := false }
    | .ok token =>
      match validateAPIKeyFormat token with
      | .error _ => { status := some 401, storeQueried := false }
      | .ok keyHash =>
        if store keyHash then { status := none, storeQueried := true }
        else { status := some 401, storeQueried := true }

/-! ## Streaming audit pipeline (claim C9)

Source: `audit.Response` (src/unnamed/part_000:122-156): the observer
goroutine scans the upstream body byte by byte, appends each byte to the
in-memory buffer, then writes it to the client pipe; a pipe-write error
makes the goroutine return at once. At exhaustion the upstream body and the
pipe writer are closed and the engine's `ResponseCallback` is invoked with a
reader over the buffer. -/

/-- The observable effects of one run of the observer goroutine. The
callback, when invoked, receives `bytes.NewReader(respBodyBuf.Bytes())`,
i.e. exactly `buffered`; it is invoked at most once by construction of the
goroutine body. -/
structure ObserverResult where
  written : List Nat
  buffered : List Nat
  pipeClosed : Bool
  upstreamClosed : Bool
  callbackInvoked : Bool
deriving DecidableEq

/-- The observer goroutine of `audit.Response` (part_000:132-153).
`failAt = some k` models the client pipe write erroring on the k-th byte
(client gone); `none` models a client that drains everything. `closeOk`
models whether `originalBody.Close()` succeeds (closing the in-process pipe
writer always succeeds, so it has no failure parameter). The buffer append
precedes the pipe write in the source, so the failing byte is buffered but
not written. -/
def auditResponseObserver (closeOk : Bool) : List Nat → Option Nat → ObserverResult
  | [], _ =>
    if closeOk then
      { written := [], buffered := [], pipeClosed := true, upstreamClosed := true,
        callbackInvoked := true }
    else
      { written := [], buffered := [], pipeClosed := false, upstreamClosed := false,
        callbackInvoked := false }
  | b :: rest, failAt =>
    match failAt with
    | some 0 =>
      { written := [], buffered := [b], pipeClosed := false, upstreamClosed := false,
        callbackInvoked := false }
    | _ =>
      let r := auditResponseObserver closeOk rest (failAt.map (fun k => k - 1))
      { written := b :: r.written, buffered := b :: r.buffered, pipeClosed := r.pipeClosed,
        upstreamClosed := r.upstreamClosed, callbackInvoked := r.callbackInvoked }

/-! ## Router registration and auth gating (claim C10)

Sources: `InitAuth` (src/main.go:139-152), `InitDatabase`
(src/main.go:122-136), `InitRouter` (src/main.go:160-185), and
`RequireAuth` above. -/

/-- `InitAuth` (main.go:139-152): the auth middleware exists only when auth
is not disabled in the configuration and a database connection was
initialized (`InitDatabase` leaves `app.DB` nil when no database URL is
configured). -/
def authMiddlewareExists (authDisabledInConfig : Bool) (dbInitialized : Bool) : Bool :=
  !authDisabledInConfig && dbInitialized

/-- `InitRouter` (main.go:160-185): the mux patterns registered. The proxy
and admin routes are registered only when the auth middleware exists;
`/healthz` and `/metrics` always are. The engine configuration
(`enginesConfig`) is only logged and plays no role in registration. -/
def initRouterPatterns (enginesConfig : List (String × String))
    (authMiddleware : Bool) : List String :=
  let _ := enginesConfig
  (if authMiddleware then ["/", "/openai-proxy/", "/admin/keys/", "/admin/keys"] else []) ++
  ["/healthz", "/metrics"]

/-- Go `strings.HasSuffix`. -/
def goHasSuffix (s suf : String) : Bool :=
  startsWithChars s.toList.reverse suf.toList.reverse

/-- One `http.ServeMux` pattern: a pattern ending in `/` matches every path
it prefixes; any other pattern matches exactly. -/
def muxPatternMatches (pattern path : String) : Bool :=
  if goHasSuffix pattern "/" then goHasPrefix path pattern else path = pattern

/-- Whether `http.ServeMux` dispatches `path` to some registered handler;
when no pattern matches, the mux itself responds 404 Not Found. (Which
matching handler wins — the longest pattern — does not matter for this
claim.) -/
def muxDispatches (patterns : List String) (path : String) : Bool :=
  patterns.any (fun p => muxPatternMatches p path)

/-! ## Theorems for claims C1, C2, C3 -/

/-- Evaluation lemma: the SHA-256 of the empty byte string is the well-known
constant hard-coded in the source. -/
theorem sha256Hex_nil_eq : sha256Hex [] = emptyBodySha256 := by decide

/-- Unfolding lemma for one successfully processed streaming event. -/
theorem handleStreamingResponse_cons_ok (marshal : DeltaPayload → String)
    (e : EventMessage) (rest : List EventMessage) (ws : List String)
    (hw : processStreamingEvent marshal e = .ok ws) :
    handleStreamingResponse marshal (e :: rest) =
      (ws ++ (handleStreamingResponse marshal rest).1,
        (handleStreamingResponse marshal rest).2) := by
  simp [handleStreamingResponse, hw]

/-- C3: for every signed Bedrock request, the payload hash handed to the
SigV4 signer equals the SHA-256 of exactly the body bytes re-installed on the
request and subsequently sent upstream, in both `SignRequest`
(src/unnamed/part_016) and `signRequest`
(src/pkg/engine/bedrock/types.go); a request with no body is signed with the
well-known SHA-256 of the empty string. -/
theorem C3_payload_hash (region : String) (req : HttpRequest) :
    ((SignRequest region req).payloadHash = sha256Hex (SignRequest region req).sentBody ∧
      (∀ b, req.body = some b → (SignRequest region req).sentBody = b) ∧
      (req.body = none → (SignRequest region req).payloadHash = emptyBodySha256)) ∧
    ((signRequest req).payloadHash = sha256Hex (signRequest req).sentBody ∧
      (∀ b, req.body = some b → (signRequest req).sentBody = b) ∧
      (req.body = none → (signRequest req).payloadHash = emptyBodySha256)) := by
  cases h : req.body with
  | none =>
    refine ⟨⟨rfl, ?_, ?_⟩, ⟨?_, ?_, ?_⟩⟩
    · intro b hb; simp at hb
    · intro _; simp only [SignRequest, h]; exact sha256Hex_nil_eq
    · simp only [signRequest, h]; exact sha256Hex_nil_eq.symm
    · intro b hb; simp at hb
    · intro _; simp [signRequest, h]
  | some b =>
    refine ⟨⟨rfl, ?_, ?_⟩, ⟨?_, ?_, ?_⟩⟩
    · intro b' hb'; simp at hb'; subst hb'; simp [SignRequest, h]
    · intro hn; simp at hn
    · simp [signRequest, h, sha256Hex]
    · intro b' hb'; simp at hb'; subst hb'; simp [signRequest, h]
    · intro hn; simp at hn

/-- Witness for C3: a concrete bodyless request is signed with the
empty-string hash, and a concrete three-byte body is re-installed unchanged. -/
theorem C3_payload_hash_witness :
    (signRequest ⟨"https", "h", "h", [], none⟩).payloadHash = emptyBodySha256 ∧
    (SignRequest "us-east-1" ⟨"https", "h", "h", [], some [1, 2, 3]⟩).sentBody = [1, 2, 3] :=
  ⟨(C3_payload_hash "us-east-1" ⟨"https", "h", "h", [], none⟩).2.2.2 rfl,
   (C3_payload_hash "us-east-1" ⟨"https", "h", "h", [], some [1, 2, 3]⟩).1.2.1 [1, 2, 3] rfl⟩

/-- C1 fails on the code: for the two-event stream (one text delta, then
`messageEnd`) the body written to the client ends with the frame
`[DONE]\n\n`, not `data: [DONE]\n\n` — `processStreamingEvent` writes the
terminator without the `data: ` prefix
(src/pkg/transformers/bedrock/transformer.go:228). -/
theorem C1_counterexample :
    ¬ IsOpenAISSEStream (handleStreamingResponse (fun _ => "")
      [⟨[(":event-type", "contentBlockDelta")], DeltaPayload.textDelta "Hello"⟩,
       ⟨[(":event-type", "messageEnd")], DeltaPayload.textDelta ""⟩]).1 := by
  intro hclaim
  have hlast := hclaim.2
  have hcomp : (handleStreamingResponse (fun _ => "")
      [⟨[(":event-type", "contentBlockDelta")], DeltaPayload.textDelta "Hello"⟩,
       ⟨[(":event-type", "messageEnd")], DeltaPayload.textDelta ""⟩]).1 =
      ["data: \n\n", "[DONE]\n\n"] := rfl
  rw [hcomp] at hlast
  simp only [List.getLast?] at hlast
  exact absurd hlast (by decide)

/-- C1 amended: for a Bedrock event stream of well-formed content deltas
followed by a `messageEnd`, the client-visible body is one `data: {json}\n\n`
frame per delta followed by exactly one terminator frame — whose bytes are
`[DONE]\n\n` (without the `data: ` prefix), and the transcode loop finishes
without error. -/
theorem C1_sse_framing (marshal : DeltaPayload → String) (ds : List DeltaPayload)
    (h : ∀ d ∈ ds, d ≠ DeltaPayload.malformed ∧ d ≠ DeltaPayload.envelopeError) :
    handleStreamingResponse marshal
      (ds.map (fun d => ⟨[(":event-type", "contentBlockDelta")], d⟩) ++
        [⟨[(":event-type", "messageEnd")], DeltaPayload.textDelta ""⟩]) =
      (ds.map (fun d => "data: " ++ marshal d ++ "\n\n") ++ ["[DONE]\n\n"], false) := by
  induction ds with
  | nil => rfl
  | cons d rest ih =>
    have hd := h d (List.mem_cons_self d rest)
    have hrest : ∀ x ∈ rest, x ≠ DeltaPayload.malformed ∧ x ≠ DeltaPayload.envelopeError :=
      fun x hx => h x (List.mem_cons_of_mem d hx)
    have ihr := ih hrest
    cases d with
    | malformed => exact absurd rfl hd.1
    | envelopeError => exact absurd rfl hd.2
    | textDelta v =>
      have hw : processStreamingEvent marshal
          ⟨[(":event-type", "contentBlockDelta")], DeltaPayload.textDelta v⟩ =
          Except.ok ["data: " ++ marshal (DeltaPayload.textDelta v) ++ "\n\n"] := rfl
      rw [List.map_cons, List.cons_append,
        handleStreamingResponse_cons_ok marshal _ _ _ hw, ihr]
      simp
    | toolCall tc =>
      have hw : processStreamingEvent marshal
          ⟨[(":event-type", "contentBlockDelta")], DeltaPayload.toolCall tc⟩ =
          Except.ok ["data: " ++ marshal (DeltaPayload.toolCall tc) ++ "\n\n"] := rfl
      rw [List.map_cons, List.cons_append,
        handleStreamingResponse_cons_ok marshal _ _ _ hw, ihr]
      simp
    | thinking t =>
      have hw : processStreamingEvent marshal
          ⟨[(":event-type", "contentBlockDelta")], DeltaPayload.thinking t⟩ =
          Except.ok ["data: " ++ marshal (DeltaPayload.thinking t) ++ "\n\n"] := rfl
      rw [List.map_cons, List.cons_append,
        handleStreamingResponse_cons_ok marshal _ _ _ hw, ihr]
      simp

/-- Witness for the amended C1 at a concrete one-delta stream. -/
theorem C1_sse_framing_witness :
    handleStreamingResponse (fun _ => "j")
      [⟨[(":event-type", "contentBlockDelta")], DeltaPayload.textDelta "Hi"⟩,
       ⟨[(":event-type", "messageEnd")], DeltaPayload.textDelta ""⟩] =
      (["data: j\n\n", "[DONE]\n\n"], false) := by
  have := C1_sse_framing (fun _ => "j") [DeltaPayload.textDelta "Hi"] (by decide)
  simpa using this

/-- C2: the `thinking` object of the Bedrock body follows `reasoning_effort`:
`high` yields budget 32768, `low` 2048, `medium` 8192, an unknown value
defaults to the medium budget, and an absent field omits the object. -/
theorem C2_thinking_mapping (req : IncomingChatCompletionRequest) :
    (req.reasoningEffort = some "high" →
      (TransformChatCompletionRequest req).thinking =
        some { type := "enabled", budgetTokens := 32768 }) ∧
    (req.reasoningEffort = some "low" →
      (TransformChatCompletionRequest req).thinking =
        some { type := "enabled", budgetTokens := 2048 }) ∧
    (req.reasoningEffort = some "medium" →
      (TransformChatCompletionRequest req).thinking =
        some { type := "enabled", budgetTokens := 8192 }) ∧
    (∀ s, req.reasoningEffort = some s → s ≠ "low" → s ≠ "medium" → s ≠ "high" →
      (TransformChatCompletionRequest req).thinking =
        some { type := "enabled", budgetTokens := 8192 }) ∧
    (req.reasoningEffort = none → (TransformChatCompletionRequest req).thinking = none) := by
  refine ⟨?_, ?_, ?_, ?_, ?_⟩
  · intro h; simp only [TransformChatCompletionRequest, buildThinkingConfig, h]; rfl
  · intro h; simp only [TransformChatCompletionRequest, buildThinkingConfig, h]; rfl
  · intro h; simp only [TransformChatCompletionRequest, buildThinkingConfig, h]; rfl
  · intro s h h1 h2 h3
    simp only [TransformChatCompletionRequest, buildThinkingConfig, h]
    rw [if_neg h1, if_neg h2, if_neg h3]
  · intro h; simp only [TransformChatCompletionRequest, buildThinkingConfig, h]

/-- Witness for C2 at concrete requests with `high` and with the field
absent. -/
theorem C2_thinking_mapping_witness :
    (TransformChatCompletionRequest { reasoningEffort := some "high" }).thinking =
      some { type := "enabled", budgetTokens := 32768 } ∧
    (TransformChatCompletionRequest { model := "m" }).thinking = none :=
  ⟨(C2_thinking_mapping { reasoningEffort := some "high" }).1 rfl,
   (C2_thinking_mapping { model := "m" }).2.2.2.2 rfl⟩

/-! ## Theorems for claims C4, C5, C6 -/

/-- `containsSub l []` always holds. -/
theorem containsSub_nil (l : List Char) : containsSub l [] = true := by
  cases l <;> simp [containsSub, startsWithChars]

/-- The empty list is a prefix of everything. -/
theorem startsWithChars_nil (l : List Char) : startsWithChars l [] = true := by
  cases l <;> rfl

/-- A prefix match survives appending on the right. -/
theorem startsWithChars_append (sub l r : List Char)
    (h : startsWithChars l sub = true) : startsWithChars (l ++ r) sub = true := by
  induction sub generalizing l with
  | nil => exact startsWithChars_nil (l ++ r)
  | cons d ds ih =>
    cases l with
    | nil => simp [startsWithChars] at h
    | cons c cs =>
      simp only [startsWithChars, Bool.and_eq_true] at h
      simp only [List.cons_append, startsWithChars, Bool.and_eq_true]
      exact ⟨h.1, ih cs h.2⟩

/-- A substring occurrence survives appending on the right. -/
theorem containsSub_append_left (l r sub : List Char)
    (h : containsSub l sub = true) : containsSub (l ++ r) sub = true := by
  induction l with
  | nil =>
    cases sub with
    | nil => exact containsSub_nil r
    | cons d ds => simp [containsSub, startsWithChars] at h
  | cons c cs ih =>
    simp only [containsSub, Bool.or_eq_true] at h
    simp only [List.cons_append, containsSub, Bool.or_eq_true]
    cases h with
    | inl h => exact Or.inl (startsWithChars_append sub (c :: cs) r h)
    | inr h => exact Or.inr (ih h)

/-- A substring occurrence survives appending on the left. -/
theorem containsSub_append_right (l r sub : List Char)
    (h : containsSub r sub = true) : containsSub (l ++ r) sub = true := by
  induction l with
  | nil => exact h
  | cons c cs ih =>
    simp only [List.cons_append, containsSub, Bool.or_eq_true]
    exact Or.inr ih

/-- `strings.Contains` is preserved by appending on the right. -/
theorem goContains_append_left (a b sub : String)
    (h : goContains a sub = true) : goContains (a ++ b) sub = true :=
  containsSub_append_left a.toList b.toList sub.toList h

/-- `strings.Contains` is preserved by appending on the left. -/
theorem goContains_append_right (a b sub : String)
    (h : goContains b sub = true) : goContains (a ++ b) sub = true :=
  containsSub_append_right a.toList b.toList sub.toList h

/-- Every error produced by the `selectEngine` tag switch mentions
`not available` or `unsupported model`. -/
theorem selectEngineType_error_explanatory (available : List String) (model e : String)
    (h : selectEngineType available model = .error e) :
    goContains e "not available" = true ∨ goContains e "unsupported model" = true := by
  unfold selectEngineType at h
  split_ifs at h <;>
    injection h with he <;>
    (subst he;
     first
       | (left; decide)
       | (right; decide)
       | (left;
          exact goContains_append_left _ _ _ (goContains_append_left _ _ _ (by decide)))
       | (right;
          exact goContains_append_left _ _ _ (goContains_append_left _ _ _ (by decide))))

/-- Every error produced by `selectEngine` (tag switch followed by the cache
lookup / construction) mentions `not available` or `unsupported model`. -/
theorem selectEngine_error_explanatory (available : List String)
    (construct : String → Except String Unit) (model e : String)
    (h : selectEngine available construct model = .error e) :
    goContains e "not available" = true ∨ goContains e "unsupported model" = true := by
  unfold selectEngine at h
  cases hs : selectEngineType available model with
  | error e' =>
    rw [hs] at h
    simp only [Except.bind] at h
    injection h with he; subst he
    exact selectEngineType_error_explanatory available model e' hs
  | ok t =>
    rw [hs] at h
    simp only [Except.bind, GetEngine] at h
    cases hc : construct t with
    | ok _ => rw [hc] at h; simp at h
    | error ce =>
      rw [hc] at h
      injection h with he; subst he
      left
      exact goContains_append_left _ _ _
        (goContains_append_right _ _ _ (by decide))

/-- C4 fails on the code: when reading the request body in the audit
middleware fails, the request is terminated with HTTP status **500**
(`Audit failed`, src/pkg/proxy/proxy.go:57), not 400. -/
theorem C4_counterexample :
    proxyHandlerServe false [] ["bedrock"] (fun _ => .ok ()) (fun _ _ => true)
        "/bedrock/model/x/converse" =
      { status := some 500, body := "Audit failed", upstreamCalled := false } ∧
    (500 : Nat) ≠ 400 := ⟨rfl, by decide⟩

/-- C4 amended: a failing body read in the audit middleware terminates the
request with HTTP status 500 (`Audit failed`) before the engine middleware
runs and before any upstream call is made. -/
theorem C4_audit_failure_halts (body : List Nat) (available : List String)
    (construct : String → Except String Unit) (isAllowedPath : String → String → Bool)
    (path : String) :
    proxyHandlerServe false body available construct isAllowedPath path =
      { status := some 500, body := "Audit failed", upstreamCalled := false } := rfl

/-- C5 fails on the code for native mode: a native-passthrough request whose
engine is not credentialed is answered with HTTP status **404**
(`Engine not available`, src/pkg/proxy/proxy.go:86), not 400. -/
theorem C5_counterexample :
    (proxyHandlerServe true [] [] (fun _ => .ok ()) (fun _ _ => true)
        "/bedrock/model/foo/converse").status = some 404 ∧
    (404 : Nat) ≠ 400 := ⟨rfl, by decide⟩

/-- C5 amended: a request whose resolved engine has no credentialed or
constructable adapter is rejected before any upstream call — with 400 and the
explanatory selection error in OpenAI-compat mode, but with 404
(`Engine not available`) in native mode. -/
theorem C5_unavailable_engine (available : List String)
    (construct : String → Except String Unit) (model e : String) (body : List Nat)
    (isAllowedPath : String → String → Bool) (path : String) :
    (selectEngine available construct model = .error e →
      handleChatCompletionsSelectStatus (selectEngine available construct model) =
        some (400, e)) ∧
    (2 ≤ (goSplitN path '/' 3).length →
      available.contains ((goSplitN path '/' 3).getD 1 "") = false →
      proxyHandlerServe true body available construct isAllowedPath path =
        { status := some 404, body := "Engine not available", upstreamCalled := false }) := by
  constructor
  · intro h
    have hx := selectEngine_error_explanatory available construct model e h
    rw [h]
    by_cases h1 : (goContains e "not available" || goContains e "not configured") = true
    · simp [handleChatCompletionsSelectStatus, h1]
    · have h2 : goContains e "unsupported model" = true := by
        cases hx with
        | inl hc => exact absurd (by simp [hc]) h1
        | inr hc => exact hc
      simp [handleChatCompletionsSelectStatus, h1, h2]
  · intro hlen hcont
    have h2 : ¬ ((goSplitN path '/' 3).length < 2) := by omega
    have hcont' : ¬ ((goSplitN path '/' 3)[1]?.getD "") ∈ available := by
      simpa [List.getD_eq_getElem?_getD] using hcont
    show engineMiddlewareStep available construct isAllowedPath path = _
    simp [engineMiddlewareStep, h2, hcont']

/-- Witness for the amended C5 at concrete inputs: a Bedrock-prefixed model
with no credentialed engines yields 400 with the explanatory error in
OpenAI-compat mode, and the same situation yields 404 in native mode. -/
theorem C5_unavailable_engine_witness :
    handleChatCompletionsSelectStatus (selectEngine [] (fun _ => .ok ()) "bedrock/x") =
      some (400, "Bedrock engine not available - check AWS credentials configuration") ∧
    proxyHandlerServe true [] [] (fun _ => .ok ()) (fun _ _ => true) "/bedrock/m" =
      { status := some 404, body := "Engine not available", upstreamCalled := false } :=
  ⟨(C5_unavailable_engine [] (fun _ => .ok ())
      "bedrock/x" "Bedrock engine not available - check AWS credentials configuration"
      [] (fun _ _ => true) "/bedrock/m").1 rfl,
   (C5_unavailable_engine [] (fun _ => .ok ())
      "bedrock/x" "Bedrock engine not available - check AWS credentials configuration"
      [] (fun _ _ => true) "/bedrock/m").2 (by decide) (by decide)⟩

/-- C6: the engine is selected from the slash-delimited model prefix when
present (`openai/`, `bedrock/`, `gemini/`); an unprefixed model starting with
`gpt-`, `text-` or `davinci` selects openai, one starting with `gemini-`
selects gemini; and any other unprefixed model is answered with HTTP status
400 (`unsupported model: …`). -/
theorem C6_engine_selection (available : List String) (model : String) :
    (goHasPrefix model "openai/" = true → available.contains "openai" = true →
      selectEngineType available model = .ok "openai") ∧
    (goHasPrefix model "openai/" = false → goHasPrefix model "bedrock/" = true →
      available.contains "bedrock" = true →
      selectEngineType available model = .ok "bedrock") ∧
    (goHasPrefix model "openai/" = false → goHasPrefix model "bedrock/" = false →
      goHasPrefix model "gemini/" = true → available.contains "gemini" = true →
      selectEngineType available model = .ok "gemini") ∧
    (goHasPrefix model "openai/" = false → goHasPrefix model "bedrock/" = false →
      goHasPrefix model "gemini/" = false →
      (goHasPrefix model "gpt-" || goHasPrefix model "text-" ||
        goHasPrefix model "davinci") = true →
      available.contains "openai" = true →
      selectEngineType available model = .ok "openai") ∧
    (goHasPrefix model "openai/" = false → goHasPrefix model "bedrock/" = false →
      goHasPrefix model "gemini/" = false →
      (goHasPrefix model "gpt-" || goHasPrefix model "text-" ||
        goHasPrefix model "davinci") = false →
      goHasPrefix model "gemini-" = true → available.contains "gemini" = true →
      selectEngineType available model = .ok "gemini") ∧
    (goHasPrefix model "openai/" = false → goHasPrefix model "bedrock/" = false →
      goHasPrefix model "gemini/" = false →
      (goHasPrefix model "gpt-" || goHasPrefix model "text-" ||
        goHasPrefix model "davinci") = false →
      goHasPrefix model "gemini-" = false →
      handleChatCompletionsSelectStatus (selectEngineType available model) =
        some (400, "unsupported model: " ++ model ++
          ". Use prefixes like openai/, bedrock/, or gemini/ to specify the engine")) := by
  refine ⟨?_, ?_, ?_, ?_, ?_, ?_⟩
  · intro h1 ha
    have ha' : "openai" ∈ available := by simpa using ha
    simp [selectEngineType, h1, ha']
  · intro h1 h2 ha
    have ha' : "bedrock" ∈ available := by simpa using ha
    simp [selectEngineType, h1, h2, ha']
  · intro h1 h2 h3 ha
    have ha' : "gemini" ∈ available := by simpa using ha
    simp [selectEngineType, h1, h2, h3, ha']
  · intro h1 h2 h3 h4 ha
    have ha' : "openai" ∈ available := by simpa using ha
    simp [selectEngineType, h1, h2, h3, h4, ha']
  · intro h1 h2 h3 h4 h5 ha
    have ha' : "gemini" ∈ available := by simpa using ha
    simp [selectEngineType, h1, h2, h3, h4, h5, ha']
  · intro h1 h2 h3 h4 h5
    have he : selectEngineType available model = .error ("unsupported model: " ++ model ++
        ". Use prefixes like openai/, bedrock/, or gemini/ to specify the engine") := by
      simp [selectEngineType, h1, h2, h3, h4, h5]
    rw [he]
    have hum : goContains ("unsupported model: " ++ model ++
        ". Use prefixes like openai/, bedrock/, or gemini/ to specify the engine")
        "unsupported model" = true := by
      rw [String.append_assoc]
      exact goContains_append_left _ _ _ (by decide)
    by_cases hna : (goContains ("unsupported model: " ++ model ++
        ". Use prefixes like openai/, bedrock/, or gemini/ to specify the engine")
          "not available" ||
        goContains ("unsupported model: " ++ model ++
        ". Use prefixes like openai/, bedrock/, or gemini/ to specify the engine")
          "not configured") = true
    · simp [handleChatCompletionsSelectStatus, hna]
    · simp [handleChatCompletionsSelectStatus, hna, hum]

/-- Witness for C6 at concrete models: a `bedrock/` prefix, the `gpt-`
heuristic, and an unrecognizable model yielding 400. -/
theorem C6_engine_selection_witness :
    selectEngineType ["bedrock"] "bedrock/anthropic.claude-3-haiku" = .ok "bedrock" ∧
    selectEngineType ["openai"] "gpt-4" = .ok "openai" ∧
    handleChatCompletionsSelectStatus (selectEngineType ["openai"] "claude-3") =
      some (400, "unsupported model: " ++ "claude-3" ++
        ". Use prefixes like openai/, bedrock/, or gemini/ to specify the engine") :=
  ⟨(C6_engine_selection ["bedrock"] "bedrock/anthropic.claude-3-haiku").2.1
      (by decide) (by decide) (by decide),
   (C6_engine_selection ["openai"] "gpt-4").2.2.2.1
      (by decide) (by decide) (by decide) (by decide) (by decide),
   (C6_engine_selection ["openai"] "claude-3").2.2.2.2.2
      (by decide) (by decide) (by decide) (by decide) (by decide)⟩

/-! ## Theorems for claim C7 -/

/-- C7 fails on the code: a summary that is ACTIVE and streaming-capable but
supports only PROVISIONED inference (not ON_DEMAND) still produces the
synthetic `us.` cross-region entry — the cross-region append
(bedrock.go:498-508) sits outside the ON_DEMAND check, so the result is not
restricted to models whose inference types include ON_DEMAND. -/
theorem C7_counterexample :
    listModelsFilter 0 [⟨["PROVISIONED"], "m", "M", "P", "ACTIVE", true⟩] =
      [{ id := "bedrock/us.m", name := "M", object := "model", created := 0,
         ownedBy := "P" }] ∧
    (["PROVISIONED"] : List String).contains "ON_DEMAND" = false := by
  constructor
  · decide
  · decide

/-- Unfolding lemma: a summary without streaming support or without ACTIVE
lifecycle contributes nothing. -/
theorem listModelsFilter_cons_skip (now : Nat) (x : ModelSummary) (rest : List ModelSummary)
    (hc : (!x.responseStreamingSupported || decide (x.lifecycleStatus ≠ "ACTIVE")) = true) :
    listModelsFilter now (x :: rest) = listModelsFilter now rest := by
  simp only [listModelsFilter]
  rw [if_pos hc]

/-- Unfolding lemma: an ACTIVE, streaming-capable summary contributes its
optional base entry and its cross-region entry. -/
theorem listModelsFilter_cons_keep (now : Nat) (x : ModelSummary) (rest : List ModelSummary)
    (hc : (!x.responseStreamingSupported || decide (x.lifecycleStatus ≠ "ACTIVE")) = false) :
    listModelsFilter now (x :: rest) =
      ((if x.inferenceTypesSupported.contains "ON_DEMAND" = true then
          [bedrockBaseModel now x] else []) ++
        [bedrockCRModel now x]) ++ listModelsFilter now rest := by
  simp only [listModelsFilter]
  rw [if_neg (by simp only [hc]; exact Bool.false_ne_true)]
  rw [if_pos (by decide : CR_INFERENCE_PREFIX ≠ "")]

/-- C7 amended: `ListModels` emits the base entry exactly for summaries that
are ACTIVE, streaming-capable and support ON_DEMAND inference, and emits the
synthetic `us.` cross-region entry for every ACTIVE, streaming-capable
summary regardless of its inference types; nothing else is emitted. -/
theorem C7_list_models (now : Nat) (l : List ModelSummary) :
    (∀ s ∈ l, s.responseStreamingSupported = true → s.lifecycleStatus = "ACTIVE" →
      bedrockCRModel now s ∈ listModelsFilter now l ∧
      (s.inferenceTypesSupported.contains "ON_DEMAND" = true →
        bedrockBaseModel now s ∈ listModelsFilter now l)) ∧
    (∀ m ∈ listModelsFilter now l, ∃ s, s ∈ l ∧ s.responseStreamingSupported = true ∧
      s.lifecycleStatus = "ACTIVE" ∧
      (m = bedrockCRModel now s ∨
        (s.inferenceTypesSupported.contains "ON_DEMAND" = true ∧
          m = bedrockBaseModel now s))) := by
  induction l with
  | nil =>
    constructor
    · intro s hs; simp at hs
    · intro m hm; simp [listModelsFilter] at hm
  | cons x rest ih =>
    obtain ⟨ih1, ih2⟩ := ih
    by_cases hc : (!x.responseStreamingSupported ||
        decide (x.lifecycleStatus ≠ "ACTIVE")) = true
    · have hx : ¬ (x.responseStreamingSupported = true ∧ x.lifecycleStatus = "ACTIVE") := by
        rintro ⟨h1, h2⟩
        rw [h1, h2] at hc
        simp at hc
      constructor
      · intro s hs hstream hactive
        rcases List.mem_cons.mp hs with hsx | hsr
        · exact absurd ⟨hsx ▸ hstream, hsx ▸ hactive⟩ hx
        · rw [listModelsFilter_cons_skip now x rest hc]
          exact ih1 s hsr hstream hactive
      · intro m hm
        rw [listModelsFilter_cons_skip now x rest hc] at hm
        obtain ⟨s, hs, h1, h2, h3⟩ := ih2 m hm
        exact ⟨s, List.mem_cons_of_mem x hs, h1, h2, h3⟩
    · have hcf : (!x.responseStreamingSupported ||
          decide (x.lifecycleStatus ≠ "ACTIVE")) = false := eq_false_of_ne_true hc
      obtain ⟨hcf1, hcf2⟩ := Bool.or_eq_false_iff.mp hcf
      have hstreamx : x.responseStreamingSupported = true := by simpa using hcf1
      have hactivex : x.lifecycleStatus = "ACTIVE" := by
        have := of_decide_eq_false hcf2
        exact not_not.mp this
      constructor
      · intro s hs hstream hactive
        rw [listModelsFilter_cons_keep now x rest hcf]
        rcases List.mem_cons.mp hs with hsx | hsr
        · subst hsx
          refine ⟨?_, fun hod => ?_⟩
          · exact List.mem_append.mpr (Or.inl (List.mem_append.mpr (Or.inr (by simp))))
          · refine List.mem_append.mpr (Or.inl (List.mem_append.mpr (Or.inl ?_)))
            rw [if_pos hod]
            simp
        · have hr := ih1 s hsr hstream hactive
          exact ⟨List.mem_append.mpr (Or.inr hr.1),
            fun hod => List.mem_append.mpr (Or.inr (hr.2 hod))⟩
      · intro m hm
        rw [listModelsFilter_cons_keep now x rest hcf] at hm
        rcases List.mem_append.mp hm with hm' | htail
        · rcases List.mem_append.mp hm' with hbase | hcr
          · by_cases hod : x.inferenceTypesSupported.contains "ON_DEMAND" = true
            · rw [if_pos hod] at hbase
              have hmb : m = bedrockBaseModel now x := by simpa using hbase
              exact ⟨x, List.mem_cons_self x rest, hstreamx, hactivex, Or.inr ⟨hod, hmb⟩⟩
            · rw [if_neg hod] at hbase
              simp at hbase
          · have hmc : m = bedrockCRModel now x := by simpa using hcr
            exact ⟨x, List.mem_cons_self x rest, hstreamx, hactivex, Or.inl hmc⟩
        · obtain ⟨s, hs, h1, h2, h3⟩ := ih2 m htail
          exact ⟨s, List.mem_cons_of_mem x hs, h1, h2, h3⟩

/-- Witness for the amended C7 at a concrete one-summary list (ACTIVE,
streaming, ON_DEMAND): both the base and the cross-region entry are
emitted. -/
theorem C7_list_models_witness :
    bedrockCRModel 0 ⟨["ON_DEMAND"], "m", "M", "P", "ACTIVE", true⟩ ∈
      listModelsFilter 0 [⟨["ON_DEMAND"], "m", "M", "P", "ACTIVE", true⟩] ∧
    bedrockBaseModel 0 ⟨["ON_DEMAND"], "m", "M", "P", "ACTIVE", true⟩ ∈
      listModelsFilter 0 [⟨["ON_DEMAND"], "m", "M", "P", "ACTIVE", true⟩] := by
  have h := (C7_list_models 0 [⟨["ON_DEMAND"], "m", "M", "P", "ACTIVE", true⟩]).1
    ⟨["ON_DEMAND"], "m", "M", "P", "ACTIVE", true⟩ (by simp) rfl rfl
  exact ⟨h.1, h.2 (by decide)⟩

/-! ## Theorems for claim C8 -/

/-- With no splits remaining, `SplitN` returns the rest whole. -/
theorem goSplitNAux_zero (sep : Char) (l : List Char) :
    goSplitNAux sep l 0 [] = [l] := by
  cases l <;> rfl

/-- Splitting a well-formed bearer header on its first space yields the
scheme and the token. -/
theorem goSplitN_bearer (t : String) :
    goSplitN ("Bearer " ++ t) ' ' 2 = ["Bearer", t] := by
  show (goSplitNAux ' ' ('B' :: 'e' :: 'a' :: 'r' :: 'e' :: 'r' :: ' ' :: t.toList)
    1 []).map String.mk = _
  rw [show goSplitNAux ' ' ('B' :: 'e' :: 'a' :: 'r' :: 'e' :: 'r' :: ' ' :: t.toList) 1 [] =
    "Bearer".toList :: goSplitNAux ' ' t.toList 0 [] from rfl]
  rw [goSplitNAux_zero]
  rfl

/-- A bearer header is never the empty string. -/
theorem bearer_header_ne_empty (t : String) : ("Bearer " ++ t) ≠ "" := by
  intro h
  have hl := congrArg String.toList h
  rw [show ("Bearer " ++ t).toList =
    'B' :: 'e' :: 'a' :: 'r' :: 'e' :: 'r' :: ' ' :: t.toList from rfl] at hl
  simp at hl

/-- Evaluation of the middleware format checks on a header of the form
`Bearer <token>` that contains no CR or LF. -/
theorem extractFormat_bearer (token : String)
    (hcrf : goContainsAny ("Bearer " ++ token) ['\r', '\n'] = false) :
    extractAndValidateAPIKeyFormat ("Bearer " ++ token) =
      (if goTrimSpace token = "" then .error "empty API key"
       else if (goTrimSpace token).length > 100 then .error "invalid API key"
       else if goContainsAny (goTrimSpace token) ['\r', '\n', '\t'] then
         .error "invalid API key"
       else .ok (goTrimSpace token)) := by
  unfold extractAndValidateAPIKeyFormat
  rw [if_neg (bearer_header_ne_empty token)]
  rw [if_neg (by simp [hcrf])]
  simp only [goSplitN_bearer]
  rw [if_neg (fun h => h ⟨rfl, show goToLower "Bearer" = "bearer" from by decide⟩)]
  rfl

/-- C8: with auth enabled, a bearer token of length ≠ 64, or containing a
non-hex character, or containing CR, LF or HT, or longer than 100
characters, is rejected with HTTP 401 before the key store is queried. (The
token is the space-trimmed bearer value, as extracted by the middleware.) -/
theorem C8_auth_fails_closed (store : String → Bool) (token : String)
    (htrim : goTrimSpace token = token)
    (hbad : token.length ≠ 64 ∨ token.toList.all isGoHexDigit = false ∨
      goContainsAny token ['\r', '\n', '\t'] = true ∨ 100 < token.length) :
    RequireAuth false store ("Bearer " ++ token) =
      { status := some 401, storeQueried := false } := by
  by_cases hcr : goContainsAny ("Bearer " ++ token) ['\r', '\n'] = true
  · have hex : extractAndValidateAPIKeyFormat ("Bearer " ++ token) =
        .error "invalid Authorization header" := by
      unfold extractAndValidateAPIKeyFormat
      rw [if_neg (bearer_header_ne_empty token), if_pos hcr]
    simp [RequireAuth, hex]
  · have hex := extractFormat_bearer token (eq_false_of_ne_true hcr)
    rw [htrim] at hex
    by_cases hemp : token = ""
    · rw [if_pos hemp] at hex
      simp [RequireAuth, hex]
    · rw [if_neg hemp] at hex
      by_cases h100 : token.length > 100
      · rw [if_pos h100] at hex
        simp [RequireAuth, hex]
      · rw [if_neg h100] at hex
        by_cases hct : goContainsAny token ['\r', '\n', '\t'] = true
        · rw [if_pos hct] at hex
          simp [RequireAuth, hex]
        · rw [if_neg (by simp [eq_false_of_ne_true hct])] at hex
          have hval : validateAPIKeyFormat token = .error "invalid API key" := by
            unfold validateAPIKeyFormat
            rw [if_neg (by rw [htrim]; exact hemp)]
            rcases hbad with h64 | hhex | hc | hlen
            · rw [if_pos h64]
            · by_cases h64 : token.length = 64
              · rw [if_neg (by simpa using h64)]
                have hgd : goHexDecodeOk token = false := by
                  unfold goHexDecodeOk
                  rw [hhex, Bool.and_false]
                rw [if_pos (by simp [hgd])]
              · rw [if_pos h64]
            · exact absurd hc (by simp [eq_false_of_ne_true hct])
            · rw [if_pos (by omega)]
          simp [RequireAuth, hex, hval]

/-- Witness for C8: the three-character bearer `abc` is rejected with 401
and the key store is never consulted. -/
theorem C8_auth_fails_closed_witness :
    RequireAuth false (fun _ => true) ("Bearer " ++ "abc") =
      { status := some 401, storeQueried := false } :=
  C8_auth_fails_closed (fun _ => true) "abc" rfl (Or.inl (by decide))

/-! ## Theorems for claims C9 and C10 -/

/-- On a pipe-write failure at index `k < |body|`, the observer stops: the
failing byte is buffered but not written, nothing is closed, and the
callback is not invoked. -/
theorem auditResponseObserver_fail (closeOk : Bool) (body : List Nat) (k : Nat)
    (hk : k < body.length) :
    auditResponseObserver closeOk body (some k) =
      { written := body.take k, buffered := body.take (k + 1), pipeClosed := false,
        upstreamClosed := false, callbackInvoked := false } := by
  induction body generalizing k with
  | nil => simp at hk
  | cons b rest ih =>
    cases k with
    | zero => rfl
    | succ j =>
      have hj : j < rest.length := by simpa using hk
      show (let r := auditResponseObserver closeOk rest ((some (j + 1)).map (fun k => k - 1))
        ({ written := b :: r.written, buffered := b :: r.buffered,
           pipeClosed := r.pipeClosed, upstreamClosed := r.upstreamClosed,
           callbackInvoked := r.callbackInvoked } : ObserverResult)) = _
      rw [show Option.map (fun k => k - 1) (some (j + 1)) = some j from by simp]
      rw [ih j hj]
      rfl

/-- With no write failure and a successful upstream close, the observer
writes and buffers the whole body, closes both ends, and invokes the
callback. -/
theorem auditResponseObserver_complete (body : List Nat) :
    auditResponseObserver true body none =
      { written := body, buffered := body, pipeClosed := true, upstreamClosed := true,
        callbackInvoked := true } := by
  induction body with
  | nil => rfl
  | cons b rest ih =>
    show (let r := auditResponseObserver true rest ((none : Option Nat).map (fun k => k - 1))
      ({ written := b :: r.written, buffered := b :: r.buffered,
         pipeClosed := r.pipeClosed, upstreamClosed := r.upstreamClosed,
         callbackInvoked := r.callbackInvoked } : ObserverResult)) = _
    rw [show Option.map (fun k => k - 1) (none : Option Nat) = none from rfl]
    rw [ih]

/-- C9: if a pipe write fails mid-body the observer ceases (only the prior
bytes were written) and the response callback is never invoked; when the
upstream body is read to exhaustion (and its close succeeds), the pipe and
the body are closed and the callback is invoked — exactly once, by
construction of the goroutine — with a buffer equal to all upstream bytes. -/
theorem C9_audit_pipeline (body : List Nat) (k : Nat) (closeOk : Bool) :
    (k < body.length →
      (auditResponseObserver closeOk body (some k)).callbackInvoked = false ∧
      (auditResponseObserver closeOk body (some k)).pipeClosed = false ∧
      (auditResponseObserver closeOk body (some k)).written = body.take k) ∧
    ((auditResponseObserver true body none).pipeClosed = true ∧
      (auditResponseObserver true body none).upstreamClosed = true ∧
      (auditResponseObserver true body none).callbackInvoked = true ∧
      (auditResponseObserver true body none).buffered = body) := by
  constructor
  · intro hk
    rw [auditResponseObserver_fail closeOk body k hk]
    exact ⟨rfl, rfl, rfl⟩
  · rw [auditResponseObserver_complete body]
    exact ⟨rfl, rfl, rfl, rfl⟩

/-- Witness for C9 on the concrete body `[10, 20, 30]` with a write failure
at index 1. -/
theorem C9_audit_pipeline_witness :
    (auditResponseObserver true [10, 20, 30] (some 1)).callbackInvoked = false ∧
    (auditResponseObserver true [10, 20, 30] (some 1)).written = [10] ∧
    (auditResponseObserver true [10, 20, 30] none).callbackInvoked = true ∧
    (auditResponseObserver true [10, 20, 30] none).buffered = [10, 20, 30] :=
  ⟨((C9_audit_pipeline [10, 20, 30] 1 true).1 (by decide)).1,
   ((C9_audit_pipeline [10, 20, 30] 1 true).1 (by decide)).2.2,
   (C9_audit_pipeline [10, 20, 30] 1 true).2.2.2.1,
   (C9_audit_pipeline [10, 20, 30] 1 true).2.2.2.2⟩

/-- C10: when authentication is disabled in the configuration or no database
was initialized, `InitRouter` registers no handler at `/` or
`/openai-proxy/`, so the mux dispatches no proxy path (every such request
gets the mux's 404), whatever the engine configuration; and the
`GOOP_DISABLE_AUTH` override makes `RequireAuth` run the handler with the
auth check skipped and no key-store access. -/
theorem C10_router_gating (enginesConfig : List (String × String))
    (authDisabled db : Bool) (path : String) (store : String → Bool) (header : String) :
    ((authDisabled = true ∨ db = false) → path ≠ "/healthz" → path ≠ "/metrics" →
      muxDispatches (initRouterPatterns enginesConfig
        (authMiddlewareExists authDisabled db)) path = false) ∧
    RequireAuth true store header = { status := none, storeQueried := false } := by
  constructor
  · intro hoff h1 h2
    have hmw : authMiddlewareExists authDisabled db = false := by
      cases hoff with
      | inl h => simp [authMiddlewareExists, h]
      | inr h => simp [authMiddlewareExists, h]
    rw [hmw]
    show muxDispatches ["/healthz", "/metrics"] path = false
    simp only [muxDispatches, List.any_cons, List.any_nil, muxPatternMatches]
    rw [if_neg (by decide : ¬ (goHasSuffix "/healthz" "/" = true)),
      if_neg (by decide : ¬ (goHasSuffix "/metrics" "/" = true))]
    simp [h1, h2]
  · rfl

/-- Witness for C10: with auth disabled by configuration, the chat
completions path is not routed; the disable-auth override passes a request
through untouched. -/
theorem C10_router_gating_witness :
    muxDispatches (initRouterPatterns [("openai", "api_key: k")]
      (authMiddlewareExists true true)) "/openai-proxy/v1/chat/completions" = false ∧
    RequireAuth true (fun _ => false) "Bearer abc" =
      { status := none, storeQueried := false } :=
  ⟨(C10_router_gating [("openai", "api_key: k")] true true
      "/openai-proxy/v1/chat/completions" (fun _ => false) "Bearer abc").1
      (Or.inl rfl) (by decide) (by decide),
   (C10_router_gating [("openai", "api_key: k")] true true
      "/openai-proxy/v1/chat/completions" (fun _ => false) "Bearer abc").2⟩
